import Mathlib

/-!
Shallow embedding of the COVID-19 research dashboard (`app.py`).

The program loads a CSV into a pandas DataFrame, derives
`publish_time` (coerced datetime), `PublicationYear` and
`abstractWordCount` columns, applies up to three equality filters chosen
in the sidebar (year, journal, source), and renders aggregate views
(shape, missing-value summary, descriptive stats, papers per year, top
journals, source counts, title word frequencies).

Modelling choices:
  * a DataFrame is a `Frame`: an ordered list of `Row`s plus a flag
    `hasSource` recording whether the optional `source_x` column exists;
  * missing cell values (NaN / NaT) are `Option.none`;
  * `pandas.to_datetime(_, errors := coerce)` is an arbitrary
    `String → Option PDate` parameter: an unparseable string maps to
    `none` (NaT);
  * `astype(str)` on a missing value yields the literal string "nan",
    as in pandas;
  * selecting a column that the frame does not have raises `KeyError`,
    modelled with `Except`;
  * `Counter.most_common` / `Series.value_counts` sort by count
    descending with ties kept in first-appearance order, modelled by a
    stable insertion sort.
-/

deriving instance DecidableEq for Except

namespace CovidDash

/-- A parsed publication date (model of a pandas `Timestamp`). -/
structure PDate where
  year : Int
  month : Nat
  day : Nat
deriving DecidableEq, Repr

/-- One loaded record, after the derived columns have been added by
`load_data`.  The `source` field is meaningful only when the enclosing
frame has the `source_x` column. -/
structure Row where
  title : Option String
  abstract : Option String
  journal : Option String
  source : Option String
  publishTime : Option PDate
  publicationYear : Option Int
  abstractWordCount : Nat
deriving DecidableEq, Repr

/-- A DataFrame: ordered rows plus presence of the optional `source_x`
column. -/
structure Frame where
  hasSource : Bool
  rows : List Row
deriving DecidableEq, Repr

/-- One raw CSV row before loading; a missing cell is `none`. -/
structure RawRow where
  title : Option String
  abstract : Option String
  journal : Option String
  source : Option String
  publish_time : Option String
deriving DecidableEq, Repr

/-- Python `str(x)` applied by `Series.astype(str)`: a missing value
(float NaN) prints as the three-letter string "nan". -/
def pandasAstype : Option String → String
  | some s => s
  | none => "nan"

/-- A regex word character: alphanumeric or underscore. -/
def isWordChar (c : Char) : Bool := c.isAlphanum || c == '_'

/-- Maximal runs of characters satisfying `keep`; the accumulator holds
the current run reversed. -/
def splitRuns (keep : Char → Bool) : List Char → List Char → List String
  | [], acc => if acc.isEmpty then [] else [String.mk acc.reverse]
  | c :: cs, acc =>
    if keep c then splitRuns keep cs (c :: acc)
    else if acc.isEmpty then splitRuns keep cs []
    else String.mk acc.reverse :: splitRuns keep cs []

/-- Python `str.split()` with no argument: split on whitespace runs,
dropping empty pieces. -/
def pySplit (s : String) : List String :=
  splitRuns (fun c => !c.isWhitespace) s.data []

/-- Python `re.findall(r"\b\w+\b", s)`: the maximal runs of word
characters of `s`. -/
def findallWords (s : String) : List String :=
  splitRuns isWordChar s.data []

/-- Python `str.lower()` (character-wise lowering). -/
def pyLower (s : String) : String := String.mk (s.data.map Char.toLower)

/-- Per-row part of `load_data`: coerce `publish_time` (failures become
`none`, never an error), derive `PublicationYear` from it, and derive
`abstractWordCount` as `len(str(abstract).split())`. -/
def loadRow (parseDate : String → Option PDate) (r : RawRow) : Row :=
  let pt := r.publish_time.bind parseDate
  { title := r.title
    abstract := r.abstract
    journal := r.journal
    source := r.source
    publishTime := pt
    publicationYear := pt.map (fun d => d.year)
    abstractWordCount := (pySplit (pandasAstype r.abstract)).length }

/-- The whole of `load_data`: read all rows and add the derived columns. -/
def load_data (parseDate : String → Option PDate) (hasSource : Bool)
    (raw : List RawRow) : Frame :=
  { hasSource := hasSource, rows := raw.map (loadRow parseDate) }

/-- One step of first-appearance deduplication. -/
def dedupStep [DecidableEq α] (acc : List α) (x : α) : List α :=
  if x ∈ acc then acc else acc ++ [x]

/-- The distinct elements of `xs` in order of first appearance (the key
order of a Python `Counter` / pandas hash table). -/
def dedupFirst [DecidableEq α] (xs : List α) : List α :=
  xs.foldl dedupStep []

/-- Tally of `xs`: each distinct element, in first-appearance order,
paired with its multiplicity. -/
def tally [DecidableEq α] (xs : List α) : List (α × Nat) :=
  (dedupFirst xs).map (fun x => (x, xs.count x))

/-- Stable insertion into a count-descending list: the new pair `p`
comes from earlier in the original order, so it passes only entries with
a strictly larger count. -/
def insertByCount (p : α × Nat) : List (α × Nat) → List (α × Nat)
  | [] => [p]
  | q :: qs => if p.2 < q.2 then q :: insertByCount p qs else p :: q :: qs

/-- Stable sort by count descending (ties keep list order). -/
def sortCountDesc : List (α × Nat) → List (α × Nat)
  | [] => []
  | x :: xs => insertByCount x (sortCountDesc xs)

/-- pandas `Series.value_counts()` on column `f`: tally the non-absent
values, sorted by count descending, ties in first-appearance order. -/
def valueCounts [DecidableEq α] (f : Row → Option α) (rows : List Row) :
    List (α × Nat) :=
  sortCountDesc (tally (rows.filterMap f))

/-- pandas `value_counts().head(n)`: the first `n` entries of the
ranking. -/
def topN [DecidableEq α] (f : Row → Option α) (rows : List Row) (n : Nat) :
    List (α × Nat) :=
  (valueCounts f rows).take n

/-- Word frequencies of a text: `Counter(re.findall(r"\b\w+\b",
text.lower())).most_common(limit)`. -/
def wordFrequencies (text : String) (limit : Nat) : List (String × Nat) :=
  (sortCountDesc (tally (findallWords (pyLower text)))).take limit

/-- Sidebar selections; `none` is the "All" sentinel. -/
structure Criteria where
  year : Option Int
  journal : Option String
  source : Option String
deriving DecidableEq, Repr

/-- Line 43-44: keep rows whose `PublicationYear` equals the selected
year (a NaN year compares unequal, hence is dropped). -/
def applyYear (c : Option Int) (fr : Frame) : Frame :=
  match c with
  | none => fr
  | some y => { fr with rows := fr.rows.filter (fun r => r.publicationYear == some y) }

/-- Line 45-46: keep rows whose `journal` equals the selected journal. -/
def applyJournal (c : Option String) (fr : Frame) : Frame :=
  match c with
  | none => fr
  | some j => { fr with rows := fr.rows.filter (fun r => r.journal == some j) }

/-- Line 47-48: keep rows whose `source_x` equals the selected source;
indexing a missing column raises `KeyError`. -/
def applySource (c : Option String) (fr : Frame) : Except String Frame :=
  match c with
  | none => Except.ok fr
  | some s =>
    if fr.hasSource then
      Except.ok { fr with rows := fr.rows.filter (fun r => r.source == some s) }
    else Except.error "KeyError: source_x"

/-- Lines 42-48: `filtered_df = df.copy()` followed by the three
conditional equality filters, applied in program order. -/
def applyFilters (fr : Frame) (c : Criteria) : Except String Frame :=
  applySource c.source (applyJournal c.journal (applyYear c.year fr))

/-- The two module-level frames of the script. -/
structure ScriptState where
  df : Frame
  filtered_df : Frame
deriving DecidableEq, Repr

/-- The sidebar filter section as a state transformation: only
`filtered_df` is reassigned, `df` is read but never written. -/
def runFilterSection (s : ScriptState) (c : Criteria) :
    Except String ScriptState :=
  match applyFilters s.df c with
  | Except.ok fd => Except.ok { df := s.df, filtered_df := fd }
  | Except.error e => Except.error e

/-- Line 38: the source choices offered by the sidebar, empty when the
`source_x` column is absent. -/
def sourceOptions (fr : Frame) : List String :=
  if fr.hasSource then dedupFirst (fr.rows.filterMap (fun r => r.source)) else []

/-- A sidebar selection is either "All" (`none`) or one of the offered
options; the selectbox cannot produce anything else. -/
def sourceChoiceValid (fr : Frame) (c : Criteria) : Bool :=
  match c.source with
  | none => true
  | some s => (sourceOptions fr).contains s

/-- Number of rows whose `f` field is absent (NaN). -/
def countAbsent (rows : List Row) (f : Row → Option α) : Nat :=
  rows.countP (fun r => (f r).isNone)

/-- df.isnull().sum(): per-column null counts, in column order. -/
def fieldAbsences (fr : Frame) : List (String × Nat) :=
  [("title", countAbsent fr.rows (fun r => r.title)),
   ("abstract", countAbsent fr.rows (fun r => r.abstract)),
   ("journal", countAbsent fr.rows (fun r => r.journal))]
  ++ (if fr.hasSource then [("source_x", countAbsent fr.rows (fun r => r.source))] else [])
  ++ [("publish_time", countAbsent fr.rows (fun r => r.publishTime)),
      ("PublicationYear", countAbsent fr.rows (fun r => r.publicationYear))]

/-- Lines 95-96: `missing = df.isnull().sum(); missing = missing[missing > 0]`. -/
def missingCounts (fr : Frame) : List (String × Nat) :=
  (fieldAbsences fr).filter (fun p => p.2 != 0)

/-- Model of the `count` line of `df.describe(include := all)`: per
column, the number of non-absent entries. -/
def describeCounts (fr : Frame) : List (String × Nat) :=
  [("title", fr.rows.countP (fun r => r.title.isSome)),
   ("abstract", fr.rows.countP (fun r => r.abstract.isSome)),
   ("journal", fr.rows.countP (fun r => r.journal.isSome))]
  ++ (if fr.hasSource then [("source_x", fr.rows.countP (fun r => r.source.isSome))] else [])
  ++ [("publish_time", fr.rows.countP (fun r => r.publishTime.isSome)),
      ("PublicationYear", fr.rows.countP (fun r => r.publicationYear.isSome)),
      ("abstractWordCount", fr.rows.length)]

/-- Stable ascending insertion by integer key (for `sort_index()`). -/
def insertByKey (p : Int × Nat) : List (Int × Nat) → List (Int × Nat)
  | [] => [p]
  | q :: qs => if q.1 < p.1 then q :: insertByKey p qs else p :: q :: qs

/-- pandas `sort_index()` on an integer-keyed series. -/
def sortByIndex : List (Int × Nat) → List (Int × Nat)
  | [] => []
  | x :: xs => insertByKey x (sortByIndex xs)

/-- Tab 3 view: `filtered_df[PublicationYear].value_counts().sort_index()`. -/
def papersPerYearView (fr : Frame) : List (Int × Nat) :=
  sortByIndex (valueCounts (fun r => r.publicationYear) fr.rows)

/-- Tab 4 view: `filtered_df[journal].value_counts().head(10)`. -/
def topJournalsView (fr : Frame) : List (String × Nat) :=
  topN (fun r => r.journal) fr.rows 10

/-- Tab 5: `" ".join(filtered_df[title].dropna().astype(str))`. -/
def joinTitles (rows : List Row) : String :=
  String.intercalate " " (rows.filterMap (fun r => r.title))

/-- Tab 6 view: `filtered_df[source_x].value_counts()` when the column
exists, otherwise no view is rendered. -/
def sourceCountsView (fr : Frame) : Option (List (String × Nat)) :=
  if fr.hasSource then some (valueCounts (fun r => r.source) fr.rows) else none

/-- Tab 6 view: `Counter(re.findall(r"\b\w+\b", all_titles.lower())).most_common(20)`. -/
def wordCountsView (fr : Frame) : List (String × Nat) :=
  wordFrequencies (joinTitles fr.rows) 20

/-- Everything the script hands to the presentation layer. -/
structure Views where
  shape : Nat
  missing : List (String × Nat)
  describe : List (String × Nat)
  papersPerYear : List (Int × Nat)
  topJournals : List (String × Nat)
  allTitles : String
  sourceCounts : Option (List (String × Nat))
  wordCounts : List (String × Nat)
deriving DecidableEq, Repr

/-- Transcription of the view-producing lines of the script body: the
filter section runs first, then each tab computes its view.  Tab 2 reads
`df` (the full frame) for the missing-value summary and the descriptive
statistics, while the remaining tabs read `filtered_df`. -/
def renderViews (df : Frame) (c : Criteria) : Except String Views :=
  match applyFilters df c with
  | Except.error e => Except.error e
  | Except.ok filtered_df =>
    let missing := (fieldAbsences df).filter (fun p => p.2 != 0)
    let all_titles := String.intercalate " " (filtered_df.rows.filterMap (fun r => r.title))
    Except.ok
      { shape := filtered_df.rows.length
        missing := missing
        describe := describeCounts df
        papersPerYear := sortByIndex (valueCounts (fun r => r.publicationYear) filtered_df.rows)
        topJournals := (valueCounts (fun r => r.journal) filtered_df.rows).take 10
        allTitles := all_titles
        sourceCounts :=
          if filtered_df.hasSource then
            some (valueCounts (fun r => r.source) filtered_df.rows)
          else none
        wordCounts := (sortCountDesc (tally (findallWords (pyLower all_titles)))).take 20 }

/-- A toy date parser for concrete witnesses: it succeeds on exactly one
string. -/
def demoParse : String → Option PDate :=
  fun s => if s = "2020-03-01" then some ⟨2020, 3, 1⟩ else none

/-- A fully populated sample row. -/
def r1 : Row :=
  { title := some "COVID-19 vaccine study"
    abstract := some "a b"
    journal := some "Nature"
    source := some "PMC"
    publishTime := some ⟨2020, 3, 1⟩
    publicationYear := some 2020
    abstractWordCount := 2 }

/-- A sample row with every optional field absent (as loading a blank
CSV line produces). -/
def r2 : Row :=
  { title := none
    abstract := none
    journal := none
    source := none
    publishTime := none
    publicationYear := none
    abstractWordCount := 1 }

/-- A sample frame with the `source_x` column present. -/
def df0 : Frame := { hasSource := true, rows := [r1, r2] }

/-- A sample frame without the `source_x` column. -/
def df1 : Frame := { hasSource := false, rows := [r1, r2] }

/-- Sample criteria: year 2020 selected, journal and source left "All". -/
def c0 : Criteria := { year := some 2020, journal := none, source := none }

/-- The sentinel criteria: every selectbox on "All". -/
def cAll : Criteria := { year := none, journal := none, source := none }

/-- The frame `c0` selects out of `df0`. -/
def fdf0 : Frame := { hasSource := true, rows := [r1] }

/-- A raw CSV row whose abstract cell is empty. -/
def rawNoAbstract : RawRow :=
  { title := some "t", abstract := none, journal := some "j",
    source := none, publish_time := some "2020-03-01" }

/-- A raw CSV row whose publish_time cell does not parse as a date. -/
def rawBadDate : RawRow :=
  { title := some "t", abstract := some "x y z", journal := some "j",
    source := none, publish_time := some "not-a-date" }

/-- The conjunction of the three sidebar predicates, associated the way
the sequential filters compose. -/
def critPred (c : Criteria) (r : Row) : Bool :=
  (match c.source with | none => true | some s => r.source == some s) &&
  ((match c.journal with | none => true | some j => r.journal == some j) &&
   (match c.year with | none => true | some y => r.publicationYear == some y))

/-- Sample script state whose scratch `filtered_df` equals `df`. -/
def st1 : ScriptState := { df := df0, filtered_df := df0 }

/-- Sample script state agreeing with `st1` on `df` but not on the
scratch `filtered_df`. -/
def st2 : ScriptState := { df := df0, filtered_df := df1 }

/-- The views the script produces for `df0` under criteria `c0`
(hand-evaluated). -/
def v0 : Views :=
  { shape := 1
    missing := [("title", 1), ("abstract", 1), ("journal", 1), ("source_x", 1),
                ("publish_time", 1), ("PublicationYear", 1)]
    describe := [("title", 1), ("abstract", 1), ("journal", 1), ("source_x", 1),
                 ("publish_time", 1), ("PublicationYear", 1), ("abstractWordCount", 2)]
    papersPerYear := [(2020, 1)]
    topJournals := [("Nature", 1)]
    allTitles := "COVID-19 vaccine study"
    sourceCounts := some [("PMC", 1)]
    wordCounts := [("covid", 1), ("19", 1), ("vaccine", 1), ("study", 1)] }

/-! Helper lemmas about the tally, sorting and filtering combinators. -/

/-- Membership through the deduplicating fold. -/
lemma foldl_dedupStep_mem [DecidableEq α] (xs : List α) :
    ∀ (acc : List α) (a : α), a ∈ xs.foldl dedupStep acc ↔ a ∈ acc ∨ a ∈ xs := by
  induction xs with
  | nil => intro acc a; simp
  | cons x xs ih =>
    intro acc a
    simp only [List.foldl_cons]
    rw [ih]
    by_cases hx : x ∈ acc
    · simp only [dedupStep, if_pos hx, List.mem_cons]
      constructor
      · rintro (h | h)
        · exact Or.inl h
        · exact Or.inr (Or.inr h)
      · rintro (h | h | h)
        · exact Or.inl h
        · exact Or.inl (by rw [h]; exact hx)
        · exact Or.inr h
    · simp [dedupStep, hx, List.mem_append, List.mem_cons, or_assoc]

/-- The deduplicating fold preserves freedom from duplicates. -/
lemma foldl_dedupStep_nodup [DecidableEq α] (xs : List α) :
    ∀ acc : List α, acc.Nodup → (xs.foldl dedupStep acc).Nodup := by
  induction xs with
  | nil => intro acc h; simpa using h
  | cons x xs ih =>
    intro acc h
    simp only [List.foldl_cons]
    apply ih
    by_cases hx : x ∈ acc
    · simpa [dedupStep, hx] using h
    · simp only [dedupStep, if_neg hx]
      exact h.append (List.nodup_singleton x)
        (by intro a ha hb; simp at hb; subst hb; exact hx ha)

/-- dedupFirst keeps exactly the elements of its input. -/
lemma mem_dedupFirst [DecidableEq α] {xs : List α} {a : α} :
    a ∈ dedupFirst xs ↔ a ∈ xs := by
  unfold dedupFirst
  rw [foldl_dedupStep_mem]
  simp

/-- dedupFirst has no duplicates. -/
lemma dedupFirst_nodup [DecidableEq α] (xs : List α) : (dedupFirst xs).Nodup :=
  foldl_dedupStep_nodup xs [] List.nodup_nil

/-- Stable insertion is a permutation of consing. -/
lemma insertByCount_perm (p : α × Nat) (l : List (α × Nat)) :
    List.Perm (insertByCount p l) (p :: l) := by
  induction l with
  | nil => exact List.Perm.refl _
  | cons q qs ih =>
    by_cases h : p.2 < q.2
    · simp only [insertByCount, if_pos h]
      exact (ih.cons q).trans (List.Perm.swap p q qs)
    · simp only [insertByCount, if_neg h]
      exact List.Perm.refl _

/-- The stable count sort permutes its input. -/
lemma sortCountDesc_perm (l : List (α × Nat)) : List.Perm (sortCountDesc l) l := by
  induction l with
  | nil => exact List.Perm.refl _
  | cons x xs ih =>
    exact (insertByCount_perm x (sortCountDesc xs)).trans (ih.cons x)

/-- The multiplicities recorded by `tally` add up to the input length. -/
lemma tally_snd_sum [DecidableEq α] (xs : List α) :
    ((tally xs).map (fun p => p.2)).sum = xs.length := by
  have hnd : (dedupFirst xs).Nodup := dedupFirst_nodup xs
  have hfs : (dedupFirst xs).toFinset = xs.toFinset := by
    ext a; simp [List.mem_toFinset, mem_dedupFirst]
  calc ((tally xs).map (fun p => p.2)).sum
      = ((dedupFirst xs).map (fun a => xs.count a)).sum := by
        unfold tally
        rw [List.map_map]
        rfl
    _ = (dedupFirst xs).toFinset.sum (fun a => xs.count a) :=
        (List.sum_toFinset _ hnd).symm
    _ = xs.toFinset.sum (fun a => xs.count a) := by rw [hfs]
    _ = xs.length := List.sum_toFinset_count_eq_length xs

/-- Runs over a list with no kept character produce nothing. -/
lemma splitRuns_nil {keep : Char → Bool} :
    ∀ cs : List Char, (∀ c ∈ cs, keep c = false) → splitRuns keep cs [] = [] := by
  intro cs
  induction cs with
  | nil => intro _; rfl
  | cons c cs ih =>
    intro h
    have hc : keep c = false := h c (List.mem_cons_self c cs)
    simp only [splitRuns, hc, Bool.false_eq_true, if_false, List.isEmpty_nil, if_true]
    exact ih (fun d hd => h d (List.mem_cons_of_mem c hd))

/-- Lowercasing a whitespace character never yields a word character. -/
lemma isWordChar_toLower_eq_false {c : Char} (h : c.isWhitespace = true) :
    isWordChar c.toLower = false := by
  have h4 : c = ' ' ∨ c = '\t' ∨ c = '\r' ∨ c = '\n' := by
    simpa [Char.isWhitespace, or_assoc] using h
  rcases h4 with h | h | h | h <;> subst h <;> decide

/-- Normal form of the sidebar filter chain: either the source column is
missing while a source is selected (KeyError), or one filter by the
conjoined predicate. -/
lemma applyFilters_eq (fr : Frame) (c : Criteria) :
    applyFilters fr c =
      if c.source.isSome && !fr.hasSource then Except.error "KeyError: source_x"
      else Except.ok { hasSource := fr.hasSource, rows := fr.rows.filter (critPred c) } := by
  obtain ⟨hs0, rows0⟩ := fr
  obtain ⟨y, j, s⟩ := c
  have hcp : critPred ⟨y, j, s⟩ = fun r =>
      (match s with | none => true | some sv => r.source == some sv) &&
      ((match j with | none => true | some jv => r.journal == some jv) &&
       (match y with | none => true | some yv => r.publicationYear == some yv)) := rfl
  rw [hcp]
  cases y <;> cases j <;> cases s <;> cases hs0 <;>
    simp [applyFilters, applyYear, applyJournal, applySource, List.filter_filter]

/-! Claim theorems. -/

/-- Claim C1, counterexample: a record loaded with an absent abstract
has `abstractWordCount = 1`, not `0`: `astype(str)` renders NaN as the
one-word string "nan". -/
theorem absentAbstract_count_ne_zero :
    (loadRow demoParse rawNoAbstract).abstract = none ∧
    (loadRow demoParse rawNoAbstract).abstractWordCount ≠ 0 := by decide

/-- Claim C1, amended: for every loaded record whose abstract is absent,
`abstractWordCount` equals one, the word count of the string "nan". -/
theorem absentAbstract_count_one (parse : String → Option PDate) (r : RawRow)
    (h : r.abstract = none) : (loadRow parse r).abstractWordCount = 1 := by
  have h1 : (loadRow parse r).abstractWordCount
      = (pySplit (pandasAstype r.abstract)).length := rfl
  rw [h1, h]
  decide

/-- Claim C1, witness: the amended statement at a concrete raw row. -/
theorem absentAbstract_count_one_witness :
    rawNoAbstract.abstract = none ∧
    (loadRow demoParse rawNoAbstract).abstractWordCount = 1 :=
  ⟨rfl, absentAbstract_count_one demoParse rawNoAbstract rfl⟩

/-- Claim C2, counterexample: under criteria `c0` the filtered frame is
`fdf0 ≠ df0`, yet the missing-value summary and the descriptive
statistics the script hands over are those of the full frame `df0`, not
of `fdf0`. -/
theorem datasetInfo_from_full_frame :
    renderViews df0 c0 = Except.ok v0 ∧
    applyFilters df0 c0 = Except.ok fdf0 ∧
    fdf0 ≠ df0 ∧
    v0.missing ≠ missingCounts fdf0 ∧
    v0.describe ≠ describeCounts fdf0 ∧
    v0.missing = missingCounts df0 ∧
    v0.describe = describeCounts df0 := by decide

/-- Claim C2, amended: on each interaction the shape, papers-per-year,
top-journals, source-counts, joined-titles and word-frequency views are
computed from the filtered subset, while the missing-value summary and
the descriptive statistics are computed from the full unfiltered frame. -/
theorem views_provenance (df : Frame) (c : Criteria) (v : Views)
    (h : renderViews df c = Except.ok v) :
    ∃ fd, applyFilters df c = Except.ok fd ∧
      v.shape = fd.rows.length ∧
      v.papersPerYear = papersPerYearView fd ∧
      v.topJournals = topJournalsView fd ∧
      v.sourceCounts = sourceCountsView fd ∧
      v.allTitles = joinTitles fd.rows ∧
      v.wordCounts = wordCountsView fd ∧
      v.missing = missingCounts df ∧
      v.describe = describeCounts df := by
  unfold renderViews at h
  cases happ : applyFilters df c with
  | error e => rw [happ] at h; simp at h
  | ok fd =>
    rw [happ] at h
    injection h with h2
    subst h2
    exact ⟨fd, rfl, rfl, rfl, rfl, rfl, rfl, rfl, rfl, rfl⟩

/-- Claim C2, witness: the amended statement evaluated on `df0`, `c0`. -/
theorem views_provenance_witness :
    v0.missing = missingCounts df0 ∧ v0.wordCounts = wordCountsView fdf0 := by
  obtain ⟨fd, h1, h2, h3, h4, h5, h6, h7, h8, h9⟩ :=
    views_provenance df0 c0 v0 (by decide)
  have hfd : fd = fdf0 := by
    rw [show applyFilters df0 c0 = Except.ok fdf0 from by decide] at h1
    injection h1 with h1e
    exact h1e.symm
  exact ⟨h8, by rw [h7, hfd]⟩

/-- Claim C3: word frequencies lower-case, tokenize on word characters
and rank by count with first-appearance tie-break; the given example
evaluates as specified, and whitespace-only input yields the empty
ranking. -/
theorem wordFrequencies_spec (s : String) (n : Nat)
    (h : ∀ c ∈ s.data, c.isWhitespace = true) :
    wordFrequencies "COVID-19 vaccine study COVID-19" 10 =
      [("covid", 2), ("19", 2), ("vaccine", 1), ("study", 1)] ∧
    wordFrequencies s n = [] := by
  refine ⟨by decide, ?_⟩
  have hnil : findallWords (pyLower s) = [] := by
    unfold findallWords
    apply splitRuns_nil
    intro c hc
    have hm : c ∈ s.data.map Char.toLower := hc
    rw [List.mem_map] at hm
    obtain ⟨d, hd, rfl⟩ := hm
    exact isWordChar_toLower_eq_false (h d hd)
  unfold wordFrequencies
  rw [hnil]
  simp [tally, dedupFirst, sortCountDesc]

/-- Claim C3, witness: the theorem applied to a whitespace-only string. -/
theorem wordFrequencies_spec_witness :
    wordFrequencies "COVID-19 vaccine study COVID-19" 10 =
      [("covid", 2), ("19", 2), ("vaccine", 1), ("study", 1)] ∧
    wordFrequencies "  " 3 = [] :=
  wordFrequencies_spec "  " 3 (by decide)

/-- Claim C4: the sidebar filter is idempotent; filtering an already
filtered frame with the same criteria changes nothing (and a KeyError
propagates unchanged). -/
theorem filter_idempotent (fr : Frame) (c : Criteria) :
    (applyFilters fr c).bind (fun fd => applyFilters fd c) = applyFilters fr c := by
  by_cases hb : (c.source.isSome && !fr.hasSource) = true
  · rw [applyFilters_eq fr c, if_pos hb]
    rfl
  · rw [applyFilters_eq fr c, if_neg hb]
    show applyFilters { hasSource := fr.hasSource, rows := fr.rows.filter (critPred c) } c = _
    rw [applyFilters_eq]
    simp only [Bool.not_eq_true] at hb
    simp [hb, List.filter_filter, Bool.and_self]

/-- Claim C4, witness: idempotence on the sample frame and criteria. -/
theorem filter_idempotent_witness :
    (applyFilters df0 c0).bind (fun fd => applyFilters fd c0) = applyFilters df0 c0 :=
  filter_idempotent df0 c0

/-- Claim C5: top-N returns at most `n` entries, is a prefix of the
value-counts ranking, has exactly `min n (number of distinct non-absent
values)` entries, and is empty on the empty record set. -/
theorem topN_spec {α : Type} [DecidableEq α] (f : Row → Option α)
    (rows : List Row) (n : Nat) :
    (topN f rows n).length ≤ n ∧
    topN f rows n <+: valueCounts f rows ∧
    (topN f rows n).length = min n (dedupFirst (rows.filterMap f)).length ∧
    topN f ([] : List Row) n = [] := by
  refine ⟨?_, ?_, ?_, ?_⟩
  · unfold topN
    rw [List.length_take]
    omega
  · exact List.take_prefix n (valueCounts f rows)
  · unfold topN
    rw [List.length_take]
    congr 1
    unfold valueCounts
    rw [(sortCountDesc_perm _).length_eq]
    unfold tally
    rw [List.length_map]
  · simp [topN, valueCounts, tally, dedupFirst, sortCountDesc]

/-- Claim C5, witness: the bound and a concrete evaluation on `df0`. -/
theorem topN_spec_witness :
    (topN (fun r => r.journal) df0.rows 10).length ≤ 10 ∧
    topN (fun r => r.journal) df0.rows 10 = [("Nature", 1)] :=
  ⟨(topN_spec (fun r => r.journal) df0.rows 10).1, by decide⟩

/-- Claim C6: the counts of `valueCounts` sum to the number of records
with a non-absent value of the field, and every ranked value comes from
some record (absent values are never tallied). -/
theorem valueCounts_total {α : Type} [DecidableEq α] (f : Row → Option α)
    (rows : List Row) :
    ((valueCounts f rows).map (fun p => p.2)).sum
      = rows.countP (fun r => (f r).isSome) ∧
    ∀ p ∈ valueCounts f rows, ∃ r ∈ rows, f r = some p.1 := by
  constructor
  · unfold valueCounts
    rw [((sortCountDesc_perm (tally (rows.filterMap f))).map (fun p => p.2)).sum_eq,
      tally_snd_sum, List.length_filterMap_eq_countP]
  · intro p hp
    unfold valueCounts at hp
    rw [(sortCountDesc_perm _).mem_iff] at hp
    unfold tally at hp
    rw [List.mem_map] at hp
    obtain ⟨x, hx, hpx⟩ := hp
    rw [mem_dedupFirst, List.mem_filterMap] at hx
    obtain ⟨r, hr, hfr⟩ := hx
    exact ⟨r, hr, by rw [← hpx]; exact hfr⟩

/-- Claim C6, witness: the count sum evaluated on the sample frame. -/
theorem valueCounts_total_witness :
    ((valueCounts (fun r => r.journal) df0.rows).map (fun p => p.2)).sum = 1 :=
  ((valueCounts_total (fun r => r.journal) df0.rows).1).trans (by decide)

/-- Claim C7: an unparseable `publish_time` yields absent `publishTime`
and absent `publicationYear` without an error, and leaves the other
fields of that record untouched. -/
theorem badDate_absent (parse : String → Option PDate) (r : RawRow) (s : String)
    (h1 : r.publish_time = some s) (h2 : parse s = none) :
    (loadRow parse r).publishTime = none ∧
    (loadRow parse r).publicationYear = none ∧
    (loadRow parse r).title = r.title ∧
    (loadRow parse r).abstract = r.abstract ∧
    (loadRow parse r).journal = r.journal := by
  have hpt : (loadRow parse r).publishTime = r.publish_time.bind parse := rfl
  have hpy : (loadRow parse r).publicationYear
      = (r.publish_time.bind parse).map (fun d => d.year) := rfl
  refine ⟨?_, ?_, rfl, rfl, rfl⟩
  · rw [hpt, h1]
    exact h2
  · rw [hpy, h1]
    rw [show (some s).bind parse = parse s from rfl, h2]
    rfl

/-- Claim C7, witness: loading the row with `publish_time` equal to
"not-a-date". -/
theorem badDate_absent_witness :
    rawBadDate.publish_time = some "not-a-date" ∧
    demoParse "not-a-date" = none ∧
    (loadRow demoParse rawBadDate).publishTime = none ∧
    (loadRow demoParse rawBadDate).publicationYear = none := by
  refine ⟨rfl, by decide, ?_, ?_⟩
  · exact (badDate_absent demoParse rawBadDate "not-a-date" rfl (by decide)).1
  · exact (badDate_absent demoParse rawBadDate "not-a-date" rfl (by decide)).2.1

/-- Claim C8: the filter section never writes `df`, and its result is a
function of `df` and the criteria alone: two runs from states agreeing
on `df` produce the same `filtered_df`. -/
theorem filterSection_pure (s1 s2 : ScriptState) (c : Criteria)
    (h : s1.df = s2.df) :
    (∀ t, runFilterSection s1 c = Except.ok t → t.df = s1.df) ∧
    (runFilterSection s1 c).map (fun t => t.filtered_df)
      = (runFilterSection s2 c).map (fun t => t.filtered_df) := by
  constructor
  · intro t ht
    unfold runFilterSection at ht
    cases happ : applyFilters s1.df c with
    | ok fd =>
      rw [happ] at ht
      injection ht with ht2
      rw [← ht2]
    | error e =>
      rw [happ] at ht
      simp at ht
  · unfold runFilterSection
    rw [h]

/-- Claim C8, witness: two states sharing `df` but not `filtered_df`. -/
theorem filterSection_pure_witness :
    (runFilterSection st1 c0).map (fun t => t.filtered_df)
      = (runFilterSection st2 c0).map (fun t => t.filtered_df) ∧
    ScriptState.df { df := df0, filtered_df := fdf0 } = st1.df := by
  refine ⟨(filterSection_pure st1 st2 c0 rfl).2, ?_⟩
  exact (filterSection_pure st1 st2 c0 rfl).1
    { df := df0, filtered_df := fdf0 } (by decide)

/-- Claim C9: when the `source_x` column is absent, the selectbox offers
only "All", so the source criterion is necessarily the sentinel and the
filter equals the one applying just the remaining criteria, with no
error. -/
theorem unknownSource_noop (fr : Frame) (c : Criteria)
    (hns : fr.hasSource = false) (hv : sourceChoiceValid fr c = true) :
    c.source = none ∧
    applyFilters fr c = Except.ok (applyJournal c.journal (applyYear c.year fr)) ∧
    applyFilters fr c
      = applyFilters fr { year := c.year, journal := c.journal, source := none } := by
  have hs : c.source = none := by
    cases hcs : c.source with
    | none => rfl
    | some s =>
      exfalso
      simp [sourceChoiceValid, hcs, sourceOptions, hns] at hv
  refine ⟨hs, ?_, ?_⟩ <;> simp [applyFilters, hs, applySource]

/-- Claim C9, witness: a frame without the source column under `c0`. -/
theorem unknownSource_noop_witness :
    df1.hasSource = false ∧ sourceChoiceValid df1 c0 = true ∧
    applyFilters df1 c0
      = Except.ok (applyJournal c0.journal (applyYear c0.year df1)) :=
  ⟨rfl, by decide, (unknownSource_noop df1 c0 rfl (by decide)).2.1⟩

/-- Claim C10: every successful filter result is a subsequence of the
input rows (same records, same relative order), and the all-"All"
criteria return the frame unchanged. -/
theorem filtered_subsequence (fr : Frame) (c : Criteria) :
    (∀ fd, applyFilters fr c = Except.ok fd → fd.rows.Sublist fr.rows) ∧
    applyFilters fr cAll = Except.ok fr := by
  constructor
  · intro fd h
    rw [applyFilters_eq] at h
    by_cases hb : (c.source.isSome && !fr.hasSource) = true
    · rw [if_pos hb] at h
      simp at h
    · rw [if_neg hb] at h
      injection h with h2
      rw [← h2]
      exact List.filter_sublist _
  · rfl

/-- Claim C10, witness: the subsequence property on the sample data and
the identity of the sentinel criteria. -/
theorem filtered_subsequence_witness :
    fdf0.rows.Sublist df0.rows ∧ applyFilters df0 cAll = Except.ok df0 :=
  ⟨(filtered_subsequence df0 c0).1 fdf0 (by decide),
   (filtered_subsequence df0 cAll).2⟩

end CovidDash
